import Mathlib

/-!
# SupportGenie — verification of the chat/escalation/analytics core

Shallow embedding of the SupportGenie repository: the React front-end chat
client (`frontend/src/App.js`, first variant) and the backend chat core
(orchestrator, message store, escalation classifier, analytics aggregator).
The backend `server.py` is not part of the source tree, so those components
are modelled from the specification (§4 of the design document); each such
definition is marked `Modelled from the spec:`.  The front-end definitions
are translated directly from `App.js`.
-/

namespace SupportGenie

/-- Message sender: end user or the AI assistant. -/
inductive Sender where
  | user
  | ai
deriving DecidableEq, Repr

/-! ## Substring matching (escalation classifier support) -/

/-- Boolean check that `p` is a prefix of `l` (character lists). -/
def prefixCheck : List Char → List Char → Bool
  | [], _ => true
  | _ :: _, [] => false
  | a :: p, b :: l => a = b && prefixCheck p l

/-- Boolean check that `n` occurs contiguously inside `h` (character lists). -/
def containsSub (h n : List Char) : Bool :=
  match h with
  | [] => n.isEmpty
  | _ :: t => prefixCheck n h || containsSub t n

/-- The characters of `s`, lower-cased. -/
def lowerChars (s : String) : List Char := s.toList.map Char.toLower

/-- Boolean check that `l` ends with `suffix` (character lists). -/
def endsWithCheck (l suffix : List Char) : Bool :=
  prefixCheck suffix.reverse l.reverse

/-- Leading and trailing whitespace stripped from a character list
(JavaScript `trim()`, Python `strip()`). -/
def trimChars (l : List Char) : List Char :=
  ((l.dropWhile Char.isWhitespace).reverse.dropWhile Char.isWhitespace).reverse

/-- A message is blank when it is empty or whitespace-only, i.e. trimming
leaves nothing (`!message.trim()` in App.js). -/
def isBlank (s : String) : Bool := (trimChars s.toList).isEmpty

/-! ## Escalation Classifier

Modelled from the spec: `backend/server.py` is absent from the source tree.
§4.4: `shouldEscalate(userMessage, aiReply, keywords) -> bool`, a pure,
deterministic, case-insensitive substring match of any configured keyword
against `userMessage` (the optional match against `aiReply` is not part of
the specified policy and is not modelled). -/
def shouldEscalate (userMessage : String) (_aiReply : String)
    (keywords : List String) : Bool :=
  keywords.any fun k => containsSub (lowerChars userMessage) (lowerChars k)

/-! ## Message Store

Modelled from the spec: `backend/server.py` is absent from the source tree.
§3 ChatMessage and §4.1 Message Store (append-only log of chat turns,
queried by session). Timestamps are epoch instants modelled as naturals. -/

/-- A persisted chat turn (spec §3 `ChatMessage`). -/
structure ChatMessage where
  session_id : String
  message : String
  sender : Sender
  timestamp : Nat
  escalated : Bool
deriving DecidableEq, Repr

/-- The append-only message log (spec §4.1). -/
abbrev MessageStore := List ChatMessage

/-- Modelled from the spec: §4.1 `countAll() -> int`. -/
def countAll (store : MessageStore) : Nat := store.length

/-- Modelled from the spec: §4.1 `countWhere(predicate) -> int`. -/
def countWhere (p : ChatMessage → Bool) (store : MessageStore) : Nat :=
  (store.filter p).length

/-- Timestamp order on stored messages. -/
def tsLe (a b : ChatMessage) : Prop := a.timestamp ≤ b.timestamp

instance : DecidableRel tsLe := fun a b => inferInstanceAs (Decidable (a.timestamp ≤ b.timestamp))

instance : IsTotal ChatMessage tsLe := ⟨fun a b => Nat.le_total a.timestamp b.timestamp⟩

instance : IsTrans ChatMessage tsLe := ⟨fun _ _ _ h1 h2 => Nat.le_trans h1 h2⟩

/-- Modelled from the spec: §4.1 `listBySession(session_id)` returns the
session's chat turns ordered by timestamp ascending. -/
def listBySession (sid : String) (store : MessageStore) : List ChatMessage :=
  List.insertionSort tsLe (store.filter fun m => m.session_id == sid)

/-! ## Analytics Aggregator

Modelled from the spec: `backend/server.py` is absent from the source tree.
§4.6 `snapshot() -> AnalyticsSnapshot`: `total_conversations = countAll()`,
`escalated = countWhere(escalated==true)`, `ai_handled = total - escalated`,
`time_saved_hours` a configurable multiplier times `ai_handled`. -/

/-- Derived analytics record (spec §3 `AnalyticsSnapshot`). -/
structure AnalyticsSnapshot where
  total_conversations : Nat
  ai_handled : Nat
  escalated : Nat
  time_saved_hours : Nat
deriving DecidableEq, Repr

/-- Modelled from the spec: §4.6 read-side analytics computation; the
time-saved multiplier is a configuration parameter. -/
def snapshot (timeSavedMultiplier : Nat) (store : MessageStore) : AnalyticsSnapshot :=
  let total := countAll store
  let esc := countWhere (fun m => m.escalated) store
  { total_conversations := total
    ai_handled := total - esc
    escalated := esc
    time_saved_hours := timeSavedMultiplier * (total - esc) }

/-! ## Chat Orchestrator

Modelled from the spec: `backend/server.py` is absent from the source tree.
§4.5 per-request state machine: validate, persist the user turn, call the
completion client once, and on success persist the AI turn with the
classifier's verdict, on failure persist a fixed fallback apology
(`escalated = false`) and return it instead of propagating the error. -/

/-- Completion-client failures (spec §4.3). -/
inductive ProviderError where
  | unavailable
  | timeout
  | rejected
deriving DecidableEq, Repr

/-- Request-level error taxonomy surfaced by the chat endpoint (spec §7);
provider failures are recovered internally and never appear here. -/
inductive ChatError where
  | invalidInput
deriving DecidableEq, Repr

/-- Response body of `POST /api/chat` (spec §6). -/
structure ChatResponse where
  message : String
  escalated : Bool
deriving DecidableEq, Repr

/-- Modelled from the spec: the fixed fallback AI message persisted and
returned when the completion provider fails (spec §4.5 step 5, an apology
string; its exact wording is not in the source tree). -/
def fallbackMessage : String :=
  "Sorry, I'm having trouble responding right now. Please try again."

/-- Modelled from the spec: §4.5 Chat Orchestrator handling one
`POST /api/chat` request.  `providerResult` is the outcome of the single
bounded-timeout call to the completion client. -/
def handleChat (now : Nat) (keywords : List String) (sid msg : String)
    (providerResult : Except ProviderError String) (store : MessageStore) :
    Except ChatError ChatResponse × MessageStore :=
  if isBlank msg then
    (.error .invalidInput, store)
  else
    let userTurn : ChatMessage :=
      { session_id := sid, message := msg, sender := .user, timestamp := now,
        escalated := false }
    let store1 : MessageStore := store ++ [userTurn]
    match providerResult with
    | .ok reply =>
      let esc := shouldEscalate msg reply keywords
      let aiTurn : ChatMessage :=
        { session_id := sid, message := reply, sender := .ai, timestamp := now,
          escalated := esc }
      (.ok { message := reply, escalated := esc }, store1 ++ [aiTurn])
    | .error _ =>
      let aiTurn : ChatMessage :=
        { session_id := sid, message := fallbackMessage, sender := .ai,
          timestamp := now, escalated := false }
      (.ok { message := fallbackMessage, escalated := false }, store1 ++ [aiTurn])

/-! ## Front-end chat client (`frontend/src/App.js`, first variant)

Translated from the source.  The client keeps `messages`, `currentMessage`,
a constant `sessionId` (created once by the `useState` initializer on line
53 and never paired with a setter), `brandTone`, `isLoading` and the chat
error banner.  `sendMessage` (lines 93–153) validates, appends the user
turn, clears the input, sets `isLoading`, issues the POST, and on
completion appends either the server's AI message or a fallback error
message chosen by error kind, resetting `isLoading` in `finally`. -/

/-- A chat bubble in the front-end `messages` array. -/
structure UiMessage where
  message : String
  sender : Sender
  timestamp : Nat
  escalated : Option Bool
deriving DecidableEq, Repr

/-- Body of a `POST /api/chat` request issued by the client (App.js 112–118). -/
structure ChatRequest where
  message : String
  session_id : String
  brand_tone : String
deriving DecidableEq, Repr

/-- Outcome of an awaited `POST /api/chat` call, as the client observes it. -/
inductive HttpOutcome where
  | ok (message : String) (escalated : Bool)
  | http500
  | timedOut
  | netError
deriving DecidableEq, Repr

/-- Front-end component state relevant to the chat pipeline
(App.js 50–62).  `pending` lists the chat requests currently awaiting a
response; in the browser this is the set of un-settled `axios.post`
promises. -/
structure AppState where
  messages : List UiMessage
  currentMessage : String
  sessionId : String
  brandTone : String
  isLoading : Bool
  chatError : Option String
  pending : List ChatRequest
deriving DecidableEq, Repr

/-- Initial component state for one UI load: the `useState` initializers of
App.js 50–62, with the session id produced once by the line-53 initializer. -/
def initState (sid : String) : AppState :=
  { messages := [], currentMessage := "", sessionId := sid,
    brandTone := "friendly", isLoading := false, chatError := none,
    pending := [] }

/-- Fallback text chosen by the `catch` block of `sendMessage`
(App.js 131–141): a specific apology per error kind. -/
def clientErrorText : HttpOutcome → String
  | .http500 => "Our AI service is temporarily unavailable. Please try again in a moment."
  | .timedOut => "Request timed out. Please check your connection and try again."
  | _ => "Sorry, I'm having trouble connecting right now. Please try again."

/-- `sendMessage` up to the `await` (App.js 93–118): validation, optimistic
user bubble, input clear, `isLoading := true`, request issue.  Returns the
new state and the requests issued by this call. -/
def sendMessage (now : Nat) (st : AppState) : AppState × List ChatRequest :=
  if isBlank st.currentMessage then
    ({ st with chatError := some "Please enter a message" }, [])
  else
    let userMsg : UiMessage :=
      { message := st.currentMessage, sender := .user, timestamp := now,
        escalated := none }
    let req : ChatRequest :=
      { message := st.currentMessage, session_id := st.sessionId,
        brand_tone := st.brandTone }
    ({ st with
        messages := st.messages ++ [userMsg], currentMessage := "",
        isLoading := true, chatError := none,
        pending := st.pending ++ [req] }, [req])

/-- Completion of an awaited `POST /api/chat` (App.js 119–152): append the
AI bubble on success, or the error banner plus fallback AI bubble on
failure; `finally` resets `isLoading`.  With no request in flight there is
nothing to settle. -/
def settleResponse (now : Nat) (st : AppState) (o : HttpOutcome) : AppState :=
  match st.pending with
  | [] => st
  | _ :: rest =>
    match o with
    | .ok m esc =>
      { st with
        messages := st.messages ++
          [{ message := m, sender := .ai, timestamp := now, escalated := some esc }],
        isLoading := false, pending := rest }
    | _ =>
      { st with
        chatError := some (clientErrorText o),
        messages := st.messages ++
          [{ message := clientErrorText o, sender := .ai, timestamp := now,
             escalated := none }],
        isLoading := false, pending := rest }

/-- User-interface events driving the chat pipeline. -/
inductive Event where
  | setInput (s : String)
  | setTone (t : String)
  | keyEnter (shift : Bool)
  | clickSend
  | response (o : HttpOutcome)
deriving Repr

/-- One event step of the front-end.  `keyEnter` models `handleKeyPress`
(App.js 241–246): `sendMessage` runs only for Enter without Shift while not
loading.  `clickSend` models the send button (App.js 600–612), disabled
while `isLoading` or while the trimmed input is empty. -/
def step (now : Nat) (st : AppState) : Event → AppState × List ChatRequest
  | .setInput s => ({ st with currentMessage := s }, [])
  | .setTone t => ({ st with brandTone := t }, [])
  | .keyEnter shift =>
    if !shift && !st.isLoading then sendMessage now st else (st, [])
  | .clickSend =>
    if !(st.isLoading || isBlank st.currentMessage) then sendMessage now st
    else (st, [])
  | .response o => (settleResponse now st o, [])

/-- Run a timed event trace, collecting every issued chat request. -/
def run (st : AppState) : List (Nat × Event) → AppState × List ChatRequest
  | [] => (st, [])
  | (n, e) :: rest =>
    ((run (step n st e).1 rest).1,
      (step n st e).2 ++ (run (step n st e).1 rest).2)

/-! ## Front-end analytics rendering (`App.js`)

The `analytics` state starts as the loosely-typed object `{}` and is
replaced by whatever JSON `GET /api/analytics` returns, so every field may
be absent.  JavaScript numbers are modelled as `Option ℚ` with `none` for
`undefined`/`NaN`; `x || d` yields `d` exactly when `x` is falsy (absent,
`NaN`, or `0`). -/

/-- A JavaScript numeric value: `none` is `undefined` or `NaN`. -/
abbrev JsNum := Option ℚ

/-- The loosely-typed analytics object held in front-end state. -/
structure AnalyticsJson where
  total_conversations : JsNum
  ai_handled : JsNum
  escalated : JsNum
  time_saved_hours : JsNum
  avg_response_time : JsNum
  satisfaction_score : JsNum
deriving DecidableEq, Repr

/-- The analytics object right after `useState({})` (App.js 57): no field
present. -/
def emptyAnalytics : AnalyticsJson :=
  { total_conversations := none, ai_handled := none, escalated := none,
    time_saved_hours := none, avg_response_time := none,
    satisfaction_score := none }

/-- JavaScript truthiness of a numeric value: `undefined`, `NaN` and `0`
are falsy. -/
def jsTruthy (x : JsNum) : Bool :=
  match x with
  | none => false
  | some v => v != 0

/-- JavaScript `x || d` on numeric values. -/
def jsOr (x : JsNum) (d : ℚ) : ℚ :=
  if jsTruthy x then x.getD d else d

/-- JavaScript division: `a / b` is `NaN` when either operand is
`undefined`/`NaN`, and infinite/`NaN` (modelled `none`) when `b = 0`. -/
def jsDiv (a b : JsNum) : JsNum :=
  match a, b with
  | some x, some y => if y = 0 then none else some (x / y)
  | _, _ => none

/-- JavaScript multiplication on numeric values. -/
def jsMul (a b : JsNum) : JsNum :=
  match a, b with
  | some x, some y => some (x * y)
  | _, _ => none

/-- `Math.round`: nearest integer, halves toward positive infinity;
`NaN` in, `NaN` out. -/
def jsRound (a : JsNum) : Option ℤ :=
  a.map fun q => ⌊q + 1 / 2⌋

/-- `{analytics.total_conversations || 0}` (App.js 368, 825, 1498). -/
def totalConversationsDisplay (a : AnalyticsJson) : ℚ :=
  jsOr a.total_conversations 0

/-- `{analytics.ai_handled || 0}` (App.js 838, 1510). -/
def aiHandledDisplay (a : AnalyticsJson) : ℚ := jsOr a.ai_handled 0

/-- `{analytics.escalated || 0}` (App.js 854, 1522). -/
def escalatedDisplay (a : AnalyticsJson) : ℚ := jsOr a.escalated 0

/-- `{analytics.time_saved_hours || 0}` (App.js 867, 1534). -/
def timeSavedDisplay (a : AnalyticsJson) : ℚ := jsOr a.time_saved_hours 0

/-- `{analytics.avg_response_time || 0.8}` (App.js 399, 894, 1560). -/
def avgResponseTimeDisplay (a : AnalyticsJson) : ℚ :=
  jsOr a.avg_response_time 0.8

/-- `{analytics.satisfaction_score || 4.6}` (App.js 413, 898, 1564). -/
def satisfactionDisplay (a : AnalyticsJson) : ℚ :=
  jsOr a.satisfaction_score 4.6

/-- The automation-rate expression rendered, with identical text, at
App.js 382–385, 839–842, 886–890 and 1552–1556:
`analytics.total_conversations ?
  Math.round((analytics.ai_handled / analytics.total_conversations) * 100)
  : 0`. -/
def automationRateDisplay (a : AnalyticsJson) : Option ℤ :=
  if jsTruthy a.total_conversations then
    jsRound (jsMul (jsDiv a.ai_handled a.total_conversations) (some 100))
  else
    some 0

/-! ## Knowledge-base upload (`App.js` `uploadKnowledgeBase`, lines 155–202)

Client-side validation before the multipart POST: a selected file, size at
most 5MB, and MIME type in the allow-list or a `.txt`/`.csv`/`.pdf`
filename (case-insensitive). -/

/-- A file picked in the upload input: name, browser MIME type, byte size. -/
structure UploadFile where
  name : String
  mime : String
  size : Nat
deriving DecidableEq, Repr

/-- `allowedTypes` (App.js 168). -/
def allowedTypes : List String := ["text/plain", "text/csv", "application/pdf"]

/-- The regex test `uploadFile.name.match(/\.(txt|csv|pdf)$/i)`
(App.js 169): the lower-cased name ends in one of the three extensions. -/
def hasAllowedExt (name : String) : Bool :=
  let l := lowerChars name
  endsWithCheck l ".txt".toList || endsWithCheck l ".csv".toList ||
    endsWithCheck l ".pdf".toList

/-- Result of the `uploadKnowledgeBase` entry checks. -/
inductive UploadDecision where
  | noFile
  | tooLarge
  | badType
  | send (f : UploadFile)
deriving DecidableEq, Repr

/-- `uploadKnowledgeBase` validation (App.js 155–175): no file, oversize
(`> 5 * 1024 * 1024`), then type (MIME allow-list or extension match); only
a file passing all three is posted. -/
def uploadDecision (f : Option UploadFile) : UploadDecision :=
  match f with
  | none => .noFile
  | some f =>
    if f.size > 5 * 1024 * 1024 then .tooLarge
    else if !(allowedTypes.contains f.mime) && !(hasAllowedExt f.name) then .badType
    else .send f

/-- A record in the Knowledge Store (spec §3 `KnowledgeItem`). -/
structure KnowledgeItem where
  filename : String
  content : String
  uploaded_at : Nat
deriving DecidableEq, Repr

/-- Modelled from the spec: §4.2 `create(filename, content)` appends a new
item with `uploaded_at = now()` (`backend/server.py` is absent from the
source tree). -/
def knowledgeCreate (now : Nat) (f : UploadFile) (items : List KnowledgeItem) :
    List KnowledgeItem :=
  items ++ [{ filename := f.name, content := "", uploaded_at := now }]

/-- The upload pipeline seen from the store: the client-side checks of
`uploadKnowledgeBase` gate the POST, and only a posted file reaches the
Knowledge Store's `create`. -/
def uploadPipeline (now : Nat) (f : Option UploadFile)
    (items : List KnowledgeItem) : List KnowledgeItem :=
  match uploadDecision f with
  | .send g => knowledgeCreate now g items
  | _ => items

/-! ## Verification-side definitions -/

/-- Single-flight invariant of the front-end chat client: at most one chat
request is awaiting a response, and the loading flag is up exactly while
one is. -/
def Inv (st : AppState) : Prop :=
  st.pending.length ≤ 1 ∧ (st.isLoading = true ↔ st.pending ≠ [])

/-- A concrete client state with a request in flight, used to exercise the
re-entrancy guards. -/
def busyState : AppState :=
  { messages := [], currentMessage := "again", sessionId := "s",
    brandTone := "friendly", isLoading := true, chatError := none,
    pending := [{ message := "hi", session_id := "s", brand_tone := "friendly" }] }

/-! ## Supporting lemmas -/

theorem prefixCheck_iff (p l : List Char) :
    prefixCheck p l = true ↔ ∃ t, p ++ t = l := by
  induction p generalizing l with
  | nil => simp [prefixCheck]
  | cons a p ih =>
    cases l with
    | nil => simp [prefixCheck]
    | cons b l =>
      simp only [prefixCheck, Bool.and_eq_true, decide_eq_true_eq, ih, List.cons_append,
        List.cons.injEq]
      constructor
      · rintro ⟨rfl, t, rfl⟩
        exact ⟨t, rfl, rfl⟩
      · rintro ⟨t, rfl, rfl⟩
        exact ⟨rfl, t, rfl⟩

theorem containsSub_iff (h n : List Char) :
    containsSub h n = true ↔ ∃ s t, s ++ n ++ t = h := by
  induction h with
  | nil =>
    simp only [containsSub, List.isEmpty_iff]
    constructor
    · rintro rfl; exact ⟨[], [], rfl⟩
    · rintro ⟨s, t, hst⟩
      rcases List.append_eq_nil.mp hst with ⟨hsn, ht⟩
      rcases List.append_eq_nil.mp hsn with ⟨_, hn⟩
      exact hn
  | cons a h ih =>
    simp only [containsSub, Bool.or_eq_true, prefixCheck_iff, ih]
    constructor
    · rintro (⟨t, ht⟩ | ⟨s, t, hst⟩)
      · exact ⟨[], t, by simpa using ht⟩
      · exact ⟨a :: s, t, by simp [hst]⟩
    · rintro ⟨s, t, hst⟩
      cases s with
      | nil => exact Or.inl ⟨t, by simpa using hst⟩
      | cons b s =>
        right
        refine ⟨s, t, ?_⟩
        simpa using (List.cons.inj hst).2

theorem sendMessage_sessionId (n : Nat) (st : AppState) :
    ((sendMessage n st).1).sessionId = st.sessionId ∧
    ∀ r ∈ (sendMessage n st).2, r.session_id = st.sessionId := by
  cases hb : isBlank st.currentMessage <;> simp [sendMessage, hb]

theorem step_sessionId (n : Nat) (st : AppState) (e : Event) :
    ((step n st e).1).sessionId = st.sessionId ∧
    ∀ r ∈ (step n st e).2, r.session_id = st.sessionId := by
  cases e with
  | setInput s => simp [step]
  | setTone t => simp [step]
  | keyEnter sh =>
    cases hc : (!sh && !st.isLoading) with
    | false => simp [step, hc]
    | true =>
      simpa [step, hc] using sendMessage_sessionId n st
  | clickSend =>
    cases hc : (!(st.isLoading || isBlank st.currentMessage)) with
    | false => simp [step, hc]
    | true =>
      simpa [step, hc] using sendMessage_sessionId n st
  | response o =>
    refine ⟨?_, by simp [step]⟩
    cases hp : st.pending with
    | nil => simp [step, settleResponse, hp]
    | cons r rest => cases o <;> simp [step, settleResponse, hp]

theorem run_sessionId (evs : List (Nat × Event)) (st : AppState) :
    ((run st evs).1).sessionId = st.sessionId ∧
    ∀ r ∈ (run st evs).2, r.session_id = st.sessionId := by
  induction evs generalizing st with
  | nil => simp [run]
  | cons p rest ih =>
    obtain ⟨n, e⟩ := p
    simp only [run]
    refine ⟨(ih (step n st e).1).1.trans (step_sessionId n st e).1, ?_⟩
    intro r hr
    rcases List.mem_append.mp hr with hr | hr
    · exact (step_sessionId n st e).2 r hr
    · exact ((ih (step n st e).1).2 r hr).trans (step_sessionId n st e).1

theorem sendMessage_inv (n : Nat) (st : AppState) (h : Inv st)
    (hl : st.isLoading = false) : Inv (sendMessage n st).1 := by
  cases hb : isBlank st.currentMessage with
  | true => simpa [sendMessage, hb, Inv] using h
  | false =>
    have hp : st.pending = [] := by
      by_contra hne
      have ht := h.2.mpr hne
      rw [hl] at ht
      exact Bool.false_ne_true ht
    simp [sendMessage, hb, Inv, hp]

theorem step_inv (n : Nat) (st : AppState) (e : Event) (h : Inv st) :
    Inv (step n st e).1 := by
  cases e with
  | setInput s => simpa [step, Inv] using h
  | setTone t => simpa [step, Inv] using h
  | keyEnter sh =>
    cases hc : (!sh && !st.isLoading) with
    | false => simpa [step, hc, Inv] using h
    | true =>
      have hl : st.isLoading = false := by
        have h2 := (Bool.and_eq_true _ _).mp hc |>.2
        simpa using h2
      simpa [step, hc] using sendMessage_inv n st h hl
  | clickSend =>
    cases hc : (!(st.isLoading || isBlank st.currentMessage)) with
    | false => simpa [step, hc, Inv] using h
    | true =>
      have hl : st.isLoading = false := by
        have h2 := hc
        simp only [Bool.not_eq_true', Bool.or_eq_false_iff] at h2
        exact h2.1
      simpa [step, hc] using sendMessage_inv n st h hl
  | response o =>
    cases hp : st.pending with
    | nil => simpa [step, settleResponse, hp, Inv] using h
    | cons r rest =>
      have hrest : rest = [] := by
        have h1 := h.1
        rw [hp] at h1
        simpa using h1
      cases o <;> simp [step, settleResponse, hp, hrest, Inv]

theorem run_inv (evs : List (Nat × Event)) (st : AppState) (h : Inv st) :
    Inv (run st evs).1 := by
  induction evs generalizing st with
  | nil => simpa [run] using h
  | cons p rest ih =>
    obtain ⟨n, e⟩ := p
    simpa only [run] using ih (step n st e).1 (step_inv n st e h)

/-! ## Claim theorems -/

/-- C3: for every store state, the AnalyticsSnapshot produced by the
analytics aggregator satisfies `ai_handled + escalated =
total_conversations`, with `escalated` counting the messages flagged
`escalated` and `ai_handled` defined as the difference. -/
theorem c3_analytics_partition (mult : Nat) (store : MessageStore) :
    (snapshot mult store).ai_handled + (snapshot mult store).escalated =
      (snapshot mult store).total_conversations := by
  have hle : countWhere (fun m => m.escalated) store ≤ countAll store :=
    List.length_filter_le _ _
  simpa [snapshot] using Nat.sub_add_cancel hle

/-- C5: `shouldEscalate` returns true iff some configured keyword is a
case-insensitive substring of the user message; in particular with keyword
set `{"refund"}` the message "I want a refund" escalates and
"thanks, great job" does not. -/
theorem c5_shouldEscalate_characterization :
    (∀ (msg reply : String) (kws : List String),
      shouldEscalate msg reply kws = true ↔
        ∃ k ∈ kws, ∃ s t, s ++ lowerChars k ++ t = lowerChars msg) ∧
    shouldEscalate "I want a refund" "" ["refund"] = true ∧
    shouldEscalate "thanks, great job" "" ["refund"] = false := by
  refine ⟨fun msg reply kws => ?_, by decide, by decide⟩
  simp only [shouldEscalate, List.any_eq_true, containsSub_iff]

/-- C8: for every store state and session, the sequence returned by
`listBySession` is non-decreasing in timestamp, is a permutation of the
session's stored turns, and contains only that session's turns. -/
theorem c8_listBySession_sorted (sid : String) (store : MessageStore) :
    List.Sorted tsLe (listBySession sid store) ∧
    (listBySession sid store).Perm
      (store.filter fun m => m.session_id == sid) ∧
    ∀ m ∈ listBySession sid store, m.session_id = sid := by
  refine ⟨List.sorted_insertionSort tsLe _, List.perm_insertionSort tsLe _, ?_⟩
  intro m hm
  have hmem : m ∈ store.filter fun m => m.session_id == sid :=
    (List.perm_insertionSort tsLe _).subset hm
  simpa using (List.of_mem_filter hmem)

/-- C5 witness: the two keyword scenarios, obtained from the
characterization theorem. -/
theorem c5_shouldEscalate_characterization_witness :
    shouldEscalate "I want a refund" "" ["refund"] = true ∧
    shouldEscalate "thanks, great job" "" ["refund"] = false :=
  ⟨c5_shouldEscalate_characterization.2.1,
    c5_shouldEscalate_characterization.2.2⟩

/-- C8 witness: a concrete two-session store with out-of-order timestamps
is returned sorted for session "a". -/
theorem c8_listBySession_sorted_witness :
    List.Sorted tsLe (listBySession "a"
      [{ session_id := "a", message := "x", sender := .user, timestamp := 5,
          escalated := false },
        { session_id := "b", message := "y", sender := .user, timestamp := 1,
          escalated := false },
        { session_id := "a", message := "z", sender := .ai, timestamp := 2,
          escalated := true }]) :=
  (c8_listBySession_sorted "a"
    [{ session_id := "a", message := "x", sender := .user, timestamp := 5,
        escalated := false },
      { session_id := "b", message := "y", sender := .user, timestamp := 1,
        escalated := false },
      { session_id := "a", message := "z", sender := .ai, timestamp := 2,
        escalated := true }]).1

/-- C4: a file larger than 5MB, or one failing the client type check (MIME
not in the allow-list and no `.txt`/`.csv`/`.pdf` extension), is rejected
by `uploadKnowledgeBase`: no upload is posted and the knowledge store is
unchanged. -/
theorem c4_upload_rejected (now : Nat) (f : UploadFile)
    (items : List KnowledgeItem)
    (h : f.size > 5 * 1024 * 1024 ∨
      (allowedTypes.contains f.mime = false ∧ hasAllowedExt f.name = false)) :
    (∀ g, uploadDecision (some f) ≠ UploadDecision.send g) ∧
    uploadPipeline now (some f) items = items := by
  have hdec : uploadDecision (some f) = UploadDecision.tooLarge ∨
      uploadDecision (some f) = UploadDecision.badType := by
    rcases h with hsize | ⟨hmime, hext⟩
    · left
      simp [uploadDecision, hsize]
    · by_cases hsz : f.size > 5 * 1024 * 1024
      · left
        simp [uploadDecision, hsz]
      · right
        simp only [uploadDecision, if_neg hsz]
        rw [hmime, hext]
        simp
  rcases hdec with hd | hd <;>
    exact ⟨fun g hsend => by simp [hd] at hsend, by simp [uploadPipeline, hd]⟩

/-- C4 witness: a 6MB text file and a 1KB `.exe` are both rejected with the
store untouched. -/
theorem c4_upload_rejected_witness :
    ((∀ g, uploadDecision (some ⟨"big.txt", "text/plain", 6 * 1024 * 1024⟩) ≠
        UploadDecision.send g) ∧
      uploadPipeline 0 (some ⟨"big.txt", "text/plain", 6 * 1024 * 1024⟩) [] = []) ∧
    ((∀ g, uploadDecision (some ⟨"setup.exe", "application/octet-stream", 1024⟩) ≠
        UploadDecision.send g) ∧
      uploadPipeline 0 (some ⟨"setup.exe", "application/octet-stream", 1024⟩) [] = []) :=
  ⟨c4_upload_rejected 0 ⟨"big.txt", "text/plain", 6 * 1024 * 1024⟩ []
      (Or.inl (by decide)),
    c4_upload_rejected 0 ⟨"setup.exe", "application/octet-stream", 1024⟩ []
      (Or.inr (by decide))⟩

/-- C6 counterexample: with every analytics field absent, the UI renders
`avg_response_time` as 0.8 and `satisfaction_score` as 4.6, not as the
claimed default 0. -/
theorem c6_defaults_counterexample :
    avgResponseTimeDisplay emptyAnalytics = 0.8 ∧
    avgResponseTimeDisplay emptyAnalytics ≠ 0 ∧
    satisfactionDisplay emptyAnalytics = 4.6 ∧
    satisfactionDisplay emptyAnalytics ≠ 0 := by
  refine ⟨rfl, ?_, rfl, ?_⟩ <;> norm_num [avgResponseTimeDisplay,
    satisfactionDisplay, emptyAnalytics, jsOr, jsTruthy]

/-- C6 (amended): an absent analytics field is rendered as an explicit
fixed constant, never left undefined: 0 for `total_conversations`,
`ai_handled`, `escalated` and `time_saved_hours`, 0.8 for
`avg_response_time`, and 4.6 for `satisfaction_score`. -/
theorem c6_defaults_explicit (a : AnalyticsJson) :
    (a.total_conversations = none → totalConversationsDisplay a = 0) ∧
    (a.ai_handled = none → aiHandledDisplay a = 0) ∧
    (a.escalated = none → escalatedDisplay a = 0) ∧
    (a.time_saved_hours = none → timeSavedDisplay a = 0) ∧
    (a.avg_response_time = none → avgResponseTimeDisplay a = 0.8) ∧
    (a.satisfaction_score = none → satisfactionDisplay a = 4.6) := by
  refine ⟨fun h => ?_, fun h => ?_, fun h => ?_, fun h => ?_, fun h => ?_,
    fun h => ?_⟩ <;>
    simp [totalConversationsDisplay, aiHandledDisplay, escalatedDisplay,
      timeSavedDisplay, avgResponseTimeDisplay, satisfactionDisplay, jsOr,
      jsTruthy, h]

/-- C6 witness: the fresh `useState({})` analytics object renders all six
fixed defaults. -/
theorem c6_defaults_explicit_witness :
    totalConversationsDisplay emptyAnalytics = 0 ∧
    aiHandledDisplay emptyAnalytics = 0 ∧
    escalatedDisplay emptyAnalytics = 0 ∧
    timeSavedDisplay emptyAnalytics = 0 ∧
    avgResponseTimeDisplay emptyAnalytics = 0.8 ∧
    satisfactionDisplay emptyAnalytics = 4.6 :=
  ⟨(c6_defaults_explicit emptyAnalytics).1 rfl,
    (c6_defaults_explicit emptyAnalytics).2.1 rfl,
    (c6_defaults_explicit emptyAnalytics).2.2.1 rfl,
    (c6_defaults_explicit emptyAnalytics).2.2.2.1 rfl,
    (c6_defaults_explicit emptyAnalytics).2.2.2.2.1 rfl,
    (c6_defaults_explicit emptyAnalytics).2.2.2.2.2 rfl⟩

/-- C9: the automation-rate expression divides only under a truthy
`total_conversations` guard: when the count is absent or zero the rendered
rate is the constant 0, and otherwise the division runs with the non-zero
denominator `t`, so the zero-denominator branch of `jsDiv` is never taken. -/
theorem c9_automation_rate_guard (a : AnalyticsJson) :
    ((a.total_conversations = none ∨ a.total_conversations = some 0) →
      automationRateDisplay a = some 0) ∧
    ∀ t, a.total_conversations = some t → t ≠ 0 →
      jsDiv a.ai_handled a.total_conversations =
        a.ai_handled.map (fun x => x / t) ∧
      automationRateDisplay a =
        jsRound (jsMul (a.ai_handled.map fun x => x / t) (some 100)) := by
  constructor
  · rintro (h | h) <;> simp [automationRateDisplay, jsTruthy, h]
  · intro t ht hne
    have hdivt : jsDiv a.ai_handled (some t) =
        a.ai_handled.map fun x => x / t := by
      cases hai : a.ai_handled <;> simp [jsDiv, hne]
    have hdiv : jsDiv a.ai_handled a.total_conversations =
        a.ai_handled.map fun x => x / t := by
      rw [ht]; exact hdivt
    refine ⟨hdiv, ?_⟩
    simp [automationRateDisplay, jsTruthy, ht, hne, hdivt]

/-- C9 witness: the empty analytics object renders a rate of 0, and with 1
of 2 conversations AI-handled the guarded division yields 50. -/
theorem c9_automation_rate_guard_witness :
    automationRateDisplay emptyAnalytics = some 0 ∧
    automationRateDisplay
      { emptyAnalytics with
        total_conversations := some 2, ai_handled := some 1 } = some 50 := by
  constructor
  · exact (c9_automation_rate_guard emptyAnalytics).1 (Or.inl rfl)
  · have h := ((c9_automation_rate_guard
      { emptyAnalytics with
        total_conversations := some 2, ai_handled := some 1 }).2 2 rfl
      (by norm_num)).2
    rw [h]
    norm_num [jsMul, jsRound]

/-- C1: for every non-empty chat message the chat operation returns a
non-empty reply: when the provider fails, the fixed fallback apology is
returned (`escalated = false`) instead of an error; when it succeeds with a
non-empty reply, that reply is returned; and every client-side fallback
text is itself non-empty. -/
theorem c1_chat_always_replies (now : Nat) (kws : List String)
    (sid msg : String) (store : MessageStore) (e : ProviderError)
    (pr : Except ProviderError String) (h : isBlank msg = false) :
    (handleChat now kws sid msg (.error e) store).1 =
      .ok { message := fallbackMessage, escalated := false } ∧
    fallbackMessage ≠ "" ∧
    ((∀ r, pr = .ok r → r ≠ "") →
      ∃ resp, (handleChat now kws sid msg pr store).1 = .ok resp ∧
        resp.message ≠ "") ∧
    ∀ o : HttpOutcome, clientErrorText o ≠ "" := by
  refine ⟨by simp [handleChat, h], by decide, ?_,
    by intro o; cases o <;> simp only [clientErrorText] <;> decide⟩
  intro hr
  cases pr with
  | ok r =>
    exact ⟨{ message := r, escalated := shouldEscalate msg r kws },
      by simp [handleChat, h], hr r rfl⟩
  | error e2 =>
    exact ⟨{ message := fallbackMessage, escalated := false },
      by simp [handleChat, h], by decide⟩

/-- C1 witness: on a provider timeout, the chat request "hi" is answered
with the non-empty fallback apology. -/
theorem c1_chat_always_replies_witness :
    (handleChat 0 [] "s" "hi" (.error .timeout) []).1 =
      .ok { message := fallbackMessage, escalated := false } ∧
    fallbackMessage ≠ "" :=
  ⟨(c1_chat_always_replies 0 [] "s" "hi" [] .timeout (.ok "ok") (by decide)).1,
    (c1_chat_always_replies 0 [] "s" "hi" [] .timeout (.ok "ok") (by decide)).2.1⟩

/-- C2: a blank (empty or whitespace-only) message is rejected before any
side effect: the front end issues no POST and appends no message, and the
chat endpoint answers `InvalidInput` with the store untouched. -/
theorem c2_blank_rejected (now : Nat) (st : AppState) (kws : List String)
    (sid msg : String) (pr : Except ProviderError String)
    (store : MessageStore) (hfront : isBlank st.currentMessage = true)
    (hmsg : isBlank msg = true) :
    ((sendMessage now st).2 = [] ∧
      (sendMessage now st).1.messages = st.messages ∧
      (sendMessage now st).1.pending = st.pending) ∧
    handleChat now kws sid msg pr store = (.error .invalidInput, store) := by
  constructor
  · simp [sendMessage, hfront]
  · simp [handleChat, hmsg]

/-- C2 witness: a freshly loaded client with the empty input issues
nothing, and the whitespace-only message "   " is rejected with the store
unchanged. -/
theorem c2_blank_rejected_witness :
    ((sendMessage 0 (initState "s")).2 = [] ∧
      (sendMessage 0 (initState "s")).1.messages = (initState "s").messages ∧
      (sendMessage 0 (initState "s")).1.pending = (initState "s").pending) ∧
    handleChat 0 [] "s" "   " (.ok "hi") [] = (.error .invalidInput, []) :=
  c2_blank_rejected 0 (initState "s") [] "s" "   " (.ok "hi") []
    (by decide) (by decide)

/-- C7: the session identifier fixed at UI load is never regenerated or
mutated: after any event trace the state still holds it, and every chat
request issued during the trace carries it. -/
theorem c7_session_id_stable (sid : String) (evs : List (Nat × Event)) :
    ((run (initState sid) evs).1).sessionId = sid ∧
    ∀ r ∈ (run (initState sid) evs).2, r.session_id = sid :=
  run_sessionId evs (initState sid)

/-- C7 witness: typing "hello" and clicking send yields a request carrying
the load's session id. -/
theorem c7_session_id_stable_witness :
    ((run (initState "s")
      [(0, Event.setInput "hello"), (1, Event.clickSend)]).1).sessionId = "s" ∧
    ChatRequest.session_id
      { message := "hello", session_id := "s", brand_tone := "friendly" } = "s" :=
  ⟨(c7_session_id_stable "s" [(0, Event.setInput "hello"), (1, Event.clickSend)]).1,
    (c7_session_id_stable "s" [(0, Event.setInput "hello"), (1, Event.clickSend)]).2
      { message := "hello", session_id := "s", brand_tone := "friendly" }
      (by decide)⟩

/-- C10: the first App variant keeps at most one chat request in flight:
after any event trace at most one request awaits a response; while
`isLoading` both the Enter key and the send button are refused without
issuing a request; and the arrival of a response always resets
`isLoading`, on success and failure alike. -/
theorem c10_single_in_flight (sid : String) (evs : List (Nat × Event))
    (n : Nat) (st : AppState) (o : HttpOutcome) (sh : Bool) :
    ((run (initState sid) evs).1).pending.length ≤ 1 ∧
    (st.isLoading = true →
      step n st (.keyEnter sh) = (st, []) ∧ step n st .clickSend = (st, [])) ∧
    (st.pending ≠ [] → ((step n st (.response o)).1).isLoading = false) := by
  refine ⟨(run_inv evs (initState sid) ⟨by simp [initState], by simp [initState]⟩).1,
    ?_, ?_⟩
  · intro hl
    exact ⟨by simp [step, hl], by simp [step, hl]⟩
  · intro hp
    cases hps : st.pending with
    | nil => exact absurd hps hp
    | cons r rest => cases o <;> simp [step, settleResponse, hps]

/-- C10 witness: a trace that tries to double-send keeps at most one
request pending; while loading, Enter and the button are inert; a 500
response resets `isLoading`. -/
theorem c10_single_in_flight_witness :
    ((run (initState "s")
      [(0, Event.setInput "hi"), (1, Event.clickSend), (2, Event.keyEnter false),
        (3, Event.clickSend)]).1).pending.length ≤ 1 ∧
    step 4 busyState (Event.keyEnter false) = (busyState, []) ∧
    step 5 busyState Event.clickSend = (busyState, []) ∧
    ((step 6 busyState (Event.response HttpOutcome.http500)).1).isLoading = false :=
  ⟨(c10_single_in_flight "s"
      [(0, Event.setInput "hi"), (1, Event.clickSend), (2, Event.keyEnter false),
        (3, Event.clickSend)] 0 busyState HttpOutcome.http500 false).1,
    ((c10_single_in_flight "s" [] 4 busyState HttpOutcome.http500 false).2.1 rfl).1,
    ((c10_single_in_flight "s" [] 5 busyState HttpOutcome.http500 false).2.1 rfl).2,
    (c10_single_in_flight "s" [] 6 busyState HttpOutcome.http500 false).2.2
      (by decide)⟩

end SupportGenie
